import Mathlib

/-!
Verification of the LabelHub annotation-import parser
(`backend/app/services/parser.py`, class `ParserService`).

The Python values flowing through the parser are decoded JSON documents,
so they are embedded as the inductive type `Json` below.  Python's
numeric tower is modelled exactly: `json.loads` produces `int` for
integer literals and `float` for decimal literals, and the parser's
arithmetic on floats is modelled over `ℚ` (exact rational arithmetic;
the spec's bbox table is stated as exact formulas, and none of the
verified claims depend on IEEE-754 rounding).

Third-party code is modelled where the service calls into it:
* `json.loads` is implemented as an executable JSON reader (`jsonLoads`);
  its error strings are abbreviated but its acceptance behaviour follows
  the strict JSON grammar used by Python's `json` module.
* compiled `jmespath` expressions are search functions `Json → Json`
  (the library returns `None`, i.e. `Json.null`, for a non-matching
  path); the compiler itself is a parameter `String → Except String _`
  wherever a theorem needs it, with `jmesCompileModel` as the concrete
  model of `jmespath.compile` used by witnesses.
* CPython builtins `float()`, `len()`, indexing and truthiness are
  modelled by `pyFloat`, `pyLen`, `pyIndex`, `pyTruthy`.
-/

/-- A decoded JSON value as produced by Python's `json` module:
`None`, `bool`, `int`, `float`, `str`, `list`, `dict`. -/
inductive Json : Type where
  | null : Json
  | bool : Bool → Json
  | int : Int → Json
  | float : ℚ → Json
  | str : String → Json
  | arr : List Json → Json
  | obj : List (String × Json) → Json

/-- Python truthiness (`bool(x)`) on decoded JSON values: `None`, `False`,
zero, the empty string, the empty list and the empty dict are falsy. -/
def pyTruthy : Json → Bool
  | .null => false
  | .bool b => b
  | .int n => n != 0
  | .float q => q != 0
  | .str s => s != ""
  | .arr xs => !xs.isEmpty
  | .obj kvs => !kvs.isEmpty

/-- Grab a maximal run of decimal digits. -/
def takeDigits : List Char → List Char × List Char
  | [] => ([], [])
  | c :: cs =>
    if c.isDigit then
      let (d, r) := takeDigits cs
      (c :: d, r)
    else ([], c :: cs)

/-- Numeric value of a digit run. -/
def digitsVal (ds : List Char) : Nat :=
  ds.foldl (fun a c => a * 10 + (c.toNat - 48)) 0

/-- Whitespace stripped by Python's `str.strip()` (the ASCII part;
the service's inputs are JSON text, where only these occur). -/
def pyIsSpace (c : Char) : Bool :=
  c = ' ' || c = '\t' || c = '\n' || c = '\r' || c = '\x0b' || c = '\x0c'

/-- CPython's `float(s)` on a string: optional surrounding whitespace,
optional sign, digits with an optional fractional part and an optional
decimal exponent.  (`inf`/`nan`, not representable in `ℚ` and never
produced by this service's data, are rejected.) -/
def parseFloatChars (cs : List Char) : Option ℚ :=
  let cs := (((cs.dropWhile pyIsSpace).reverse.dropWhile pyIsSpace)).reverse
  let (sgn, cs) : ℚ × List Char :=
    match cs with
    | '+' :: r => (1, r)
    | '-' :: r => (-1, r)
    | r => (1, r)
  let (ip, cs) := takeDigits cs
  let (fp, cs) :=
    match cs with
    | '.' :: r => takeDigits r
    | r => ([], r)
  if ip.isEmpty && fp.isEmpty then none
  else
    let mantissa : ℚ := (digitsVal ip : ℚ) + (digitsVal fp : ℚ) / ((10 : ℚ) ^ fp.length)
    match cs with
    | [] => some (sgn * mantissa)
    | e :: r =>
      if e = 'e' || e = 'E' then
        let (esgn, r) : Int × List Char :=
          match r with
          | '+' :: r2 => (1, r2)
          | '-' :: r2 => (-1, r2)
          | r2 => (1, r2)
        let (ed, r) := takeDigits r
        if ed.isEmpty || !r.isEmpty then none
        else some (sgn * mantissa * (10 : ℚ) ^ (esgn * (digitsVal ed : Int)))
      else none

/-- CPython's `float(x)` builtin on a decoded JSON value: numbers and
bools convert, numeric strings are parsed, everything else raises. -/
def pyFloat : Json → Except String ℚ
  | .int n => .ok n
  | .float q => .ok q
  | .bool b => .ok (if b then 1 else 0)
  | .str s =>
    match parseFloatChars s.data with
    | some q => .ok q
    | none => .error ("ValueError: could not convert string to float: " ++ s)
  | .null => .error "TypeError: float() argument is not a string or a real number: NoneType"
  | .arr _ => .error "TypeError: float() argument is not a string or a real number: list"
  | .obj _ => .error "TypeError: float() argument is not a string or a real number: dict"

/-- CPython's `len(x)` on a decoded JSON value. -/
def pyLen : Json → Except String Nat
  | .str s => .ok s.length
  | .arr xs => .ok xs.length
  | .obj kvs => .ok kvs.length
  | _ => .error "TypeError: object has no len()"

/-- CPython's `x[i]` for a non-negative index on a decoded JSON value:
list indexing, string indexing (a one-character string), and dict
lookup with an `int` key (JSON dicts have only string keys, so this is
a `KeyError`). -/
def pyIndex (j : Json) (i : Nat) : Except String Json :=
  match j with
  | .arr xs =>
    match xs.get? i with
    | some v => .ok v
    | none => .error "IndexError: list index out of range"
  | .str s =>
    match s.data.get? i with
    | some c => .ok (.str (String.mk [c]))
    | none => .error "IndexError: string index out of range"
  | .obj _ => .error "KeyError: integer key"
  | _ => .error "TypeError: object is not subscriptable"

/-- Decimal rendering of an integer-valued float, as in Python's `str`. -/
def renderFloat (q : ℚ) : String :=
  if q.den = 1 then toString q.num ++ ".0" else toString q.num ++ "/" ++ toString q.den

/-- CPython's `str(x)` on a decoded JSON value.  The parser applies it to
image keys and labels, which in every template are strings or ints;
container rendering is abbreviated (no verified claim inspects it). -/
def pyStr : Json → String
  | .str s => s
  | .int n => toString n
  | .bool b => if b then "True" else "False"
  | .null => "None"
  | .float q => renderFloat q
  | .arr _ => "<list>"
  | .obj _ => "<dict>"

/-- Canonical bbox shape `{x, y, width, height}` (schema `BBoxData`). -/
structure BboxData where
  x : ℚ
  y : ℚ
  width : ℚ
  height : ℚ
  deriving DecidableEq

/-- Canonical polygon shape `{points: [[x,y], ...]}`.  Flat input passes
the raw decoded values through; nested input stores `float()`-converted
pairs — exactly as in `_parse_polygon`. -/
structure PolygonData where
  points : List (List Json)

/-- `ParserService._parse_bbox(data, format, normalized)`: the length
check precedes the `float` conversion of `data[:4]`, which precedes the
format dispatch; `normalized` is carried but never used. -/
def parse_bbox (data : Json) (format : String) (normalized : Bool) : Except String (Option BboxData) :=
  match data with
  | .arr (a :: b :: c :: d :: _) => do
    let c0 ← pyFloat a
    let c1 ← pyFloat b
    let c2 ← pyFloat c
    let c3 ← pyFloat d
    if format = "xyxy" then
      .ok (some ⟨c0, c1, c2 - c0, c3 - c1⟩)
    else if format = "xywh" then
      .ok (some ⟨c0, c1, c2, c3⟩)
    else if format = "cxcywh" then
      .ok (some ⟨c0 - c2 / 2, c1 - c3 / 2, c2, c3⟩)
    else
      .ok none
  | .arr _ => .ok none
  | _ => .ok none

/-- The flat-polygon pairing `[[data[i], data[i+1]] for i in range(0, len(data), 2)]`. -/
def pairUp : List Json → List (List Json)
  | a :: b :: rest => [a, b] :: pairUp rest
  | _ => []

/-- The nested-polygon comprehension
`[[float(p[0]), float(p[1])] for p in data if len(p) >= 2]`:
elements shorter than 2 are filtered out, kept elements are indexed and
`float`-converted in Python's evaluation order. -/
def nestedPoints : List Json → Except String (List (List Json))
  | [] => .ok []
  | p :: rest => do
    let n ← pyLen p
    if 2 ≤ n then
      let a ← pyIndex p 0
      let x ← pyFloat a
      let b ← pyIndex p 1
      let y ← pyFloat b
      let tl ← nestedPoints rest
      .ok ([Json.float x, Json.float y] :: tl)
    else
      nestedPoints rest

/-- `ParserService._parse_polygon(data, format)`. -/
def parse_polygon (data : Json) (format : String) : Except String (Option PolygonData) :=
  match data with
  | .arr xs =>
    if format = "flat" then
      if xs.length < 6 || xs.length % 2 != 0 then .ok none
      else .ok (some ⟨pairUp xs⟩)
    else if format = "nested" then
      if xs.length < 3 then .ok none
      else do
        let pts ← nestedPoints xs
        .ok (some ⟨pts⟩)
    else .ok none
  | _ => .ok none

/-- Geometry payload of a `PredictionItem` (`data` field). -/
inductive GeomData : Type where
  | bbox : BboxData → GeomData
  | polygon : PolygonData → GeomData

/-- Schema `PredictionItem`: one annotation mapped into the internal model. -/
structure PredictionItem where
  type : String
  label : String
  score : Option ℚ
  data : GeomData

/-- Schema `Prediction`: the result of mapping one record. -/
structure Prediction where
  image_key : String
  predictions : List PredictionItem

/-- The compiled-expression state set up by
`ParserService._compile_expressions`: each compiled jmespath expression
is its search function (`jmespath` returns `None`, i.e. `Json.null`,
when the path does not match).  `score`, `bboxPath` and `polygonPath`
are `none` exactly when the corresponding attribute is `None` in the
Python object. -/
structure CompiledMapping where
  image_key : Json → Json
  annotations_path : Json → Json
  label : Json → Json
  score : Option (Json → Json)
  bboxPath : Option (Json → Json)
  bboxFormat : String
  bboxNormalized : Bool
  polygonPath : Option (Json → Json)
  polygonFormat : String

/-- The score extraction step of `_parse_single_record`:
`score = self.score_expr.search(ann)` followed by
`if score is not None: score = float(score)`. -/
def scoreOf (m : CompiledMapping) (ann : Json) : Except String (Option ℚ) :=
  match m.score with
  | none => .ok none
  | some sexpr =>
    match sexpr ann with
    | .null => .ok none
    | sv => do .ok (some (← pyFloat sv))

/-- The bbox step of `_parse_single_record`: when a bbox mapping is
configured and its path yields a truthy value, run `_parse_bbox`; a
non-absent shape appends one item. -/
def bboxItemsOf (m : CompiledMapping) (label : Json) (score : Option ℚ) (ann : Json) :
    Except String (List PredictionItem) :=
  match m.bboxPath with
  | none => .ok []
  | some bexpr =>
    if pyTruthy (bexpr ann) then
      match parse_bbox (bexpr ann) m.bboxFormat m.bboxNormalized with
      | .ok (some b) => .ok [⟨"bbox", pyStr label, score, .bbox b⟩]
      | .ok none => .ok []
      | .error e => .error e
    else .ok []

/-- The polygon step of `_parse_single_record`, mirroring the bbox step. -/
def polyItemsOf (m : CompiledMapping) (label : Json) (score : Option ℚ) (ann : Json) :
    Except String (List PredictionItem) :=
  match m.polygonPath with
  | none => .ok []
  | some pexpr =>
    if pyTruthy (pexpr ann) then
      match parse_polygon (pexpr ann) m.polygonFormat with
      | .ok (some p) => .ok [⟨"polygon", pyStr label, score, .polygon p⟩]
      | .ok none => .ok []
      | .error e => .error e
    else .ok []

/-- The annotation loop of `_parse_single_record`.  The wall-clock check
`(time.time() - start_time) * 1000 > MAX_EXPRESSION_TIME_MS` re-reads
real time once per iteration; real time is not shallow-embeddable, so
the check's outcome at iteration `i` is the parameter `timeout i`.
An annotation whose label is falsy is skipped with no item and no
error; otherwise the bbox items precede the polygon items. -/
def annLoop (m : CompiledMapping) (timeout : Nat → Bool) :
    List Json → Nat → Except String (List PredictionItem)
  | [], _ => .ok []
  | ann :: rest, i =>
    if timeout i then .error "Expression timeout exceeded (100ms)"
    else if pyTruthy (m.label ann) then do
      let score ← scoreOf m ann
      let bi ← bboxItemsOf m (m.label ann) score ann
      let pi ← polyItemsOf m (m.label ann) score ann
      let tl ← annLoop m timeout rest (i + 1)
      .ok (bi ++ pi ++ tl)
    else annLoop m timeout rest (i + 1)

/-- `ParserService._parse_single_record(record)`: a falsy image key
returns `None`; a falsy or non-list annotations value returns a
`Prediction` with an empty item list; otherwise the annotation loop
runs. -/
def parse_single_record (m : CompiledMapping) (timeout : Nat → Bool) (record : Json) :
    Except String (Option Prediction) :=
  let image_key := m.image_key record
  if pyTruthy image_key then
    let annotations := m.annotations_path record
    match annotations with
    | .arr anns =>
      if pyTruthy (Json.arr anns) then do
        let items ← annLoop m timeout anns 0
        .ok (some ⟨pyStr image_key, items⟩)
      else .ok (some ⟨pyStr image_key, []⟩)
    | _ => .ok (some ⟨pyStr image_key, []⟩)
  else .ok none

/-- The loop body of `ParserService._parse_records`: for each record, in
order, a raised exception is recorded as `(index, message)` in the local
`errors` list and a non-`None` prediction is appended to `predictions`.
Returns both local lists. -/
def parse_records_state (m : CompiledMapping) (timeout : Nat → Nat → Bool) :
    List Json → Nat → List Prediction × List (Nat × String)
  | [], _ => ([], [])
  | r :: rest, idx =>
    let (ps, es) := parse_records_state m timeout rest (idx + 1)
    match parse_single_record m (timeout idx) r with
    | .ok (some p) => (p :: ps, es)
    | .ok none => (ps, es)
    | .error e => (ps, (idx, e) :: es)

/-- `ParserService._parse_records(records)`: builds both lists but
`return predictions` (parser.py line 153) hands back only the
predictions — the `errors` list is discarded. -/
def parse_records (m : CompiledMapping) (timeout : Nat → Nat → Bool) (records : List Json) :
    List Prediction :=
  (parse_records_state m timeout records 0).1

/-- JSON insignificant whitespace. -/
def jsonWS (c : Char) : Bool :=
  c = ' ' || c = '\t' || c = '\n' || c = '\r'

/-- Skip insignificant whitespace. -/
def skipWS (cs : List Char) : List Char :=
  cs.dropWhile jsonWS

/-- Hexadecimal digit value. -/
def hexVal (c : Char) : Option Nat :=
  if c.isDigit then some (c.toNat - 48)
  else if 'a' ≤ c ∧ c ≤ 'f' then some (c.toNat - 87)
  else if 'A' ≤ c ∧ c ≤ 'F' then some (c.toNat - 55)
  else none

/-- Four hex digits of a `\u` escape. -/
def hex4 (a b c d : Char) : Option Nat := do
  let va ← hexVal a
  let vb ← hexVal b
  let vc ← hexVal c
  let vd ← hexVal d
  some (((va * 16 + vb) * 16 + vc) * 16 + vd)

/-- Body of a JSON string literal (after the opening quote), with the
standard escapes (`\uXXXX` as a single code unit; surrogate pairs are
not joined — no input in this development uses them).  The fuel is an
upper bound on the steps; each step consumes at least one character. -/
def jStringBody : Nat → List Char → List Char → Except String (String × List Char)
  | 0, _, _ => .error "Unterminated string"
  | fuel + 1, cs, acc =>
    match cs with
    | [] => .error "Unterminated string"
    | '"' :: rest => .ok (String.mk acc.reverse, rest)
    | '\\' :: rest =>
      match rest with
      | '"' :: r => jStringBody fuel r ('"' :: acc)
      | '\\' :: r => jStringBody fuel r ('\\' :: acc)
      | '/' :: r => jStringBody fuel r ('/' :: acc)
      | 'b' :: r => jStringBody fuel r ('\x08' :: acc)
      | 'f' :: r => jStringBody fuel r ('\x0c' :: acc)
      | 'n' :: r => jStringBody fuel r ('\n' :: acc)
      | 'r' :: r => jStringBody fuel r ('\r' :: acc)
      | 't' :: r => jStringBody fuel r ('\t' :: acc)
      | 'u' :: a :: b :: c :: d :: r =>
        match hex4 a b c d with
        | some n => jStringBody fuel r (Char.ofNat n :: acc)
        | none => .error "Invalid unicode escape"
      | _ => .error "Invalid escape"
    | c :: rest => jStringBody fuel rest (c :: acc)

/-- Sign application for number parsing. -/
def applySign (neg : Bool) (q : ℚ) : ℚ :=
  if neg then -q else q

/-- Optional exponent part of a JSON number. -/
def jExp : List Char → Except String (Option Int × List Char)
  | 'e' :: r => jExpAfterMark r
  | 'E' :: r => jExpAfterMark r
  | cs => .ok (none, cs)
where
  jExpAfterMark (r : List Char) : Except String (Option Int × List Char) :=
    let (esgn, r2) : Int × List Char :=
      match r with
      | '+' :: t => (1, t)
      | '-' :: t => (-1, t)
      | t => (1, t)
    let (ed, r3) := takeDigits r2
    if ed.isEmpty then .error "Expecting digits in exponent"
    else .ok (some (esgn * (digitsVal ed : Int)), r3)

/-- A JSON number starting at `cs` (first char is a digit or `-`).
Integer literals decode to `Json.int`, literals with a fraction or
exponent to `Json.float` — matching Python's `json.loads`.  (The reader
is lenient about redundant leading zeros; no input in this development
has them.) -/
def jNumber (cs : List Char) : Except String (Json × List Char) :=
  let (neg, cs1) : Bool × List Char :=
    match cs with
    | '-' :: r => (true, r)
    | r => (false, r)
  let (ip, cs2) := takeDigits cs1
  if ip.isEmpty then .error "Expecting value"
  else
    match cs2 with
    | '.' :: r =>
      let (fp, cs3) := takeDigits r
      if fp.isEmpty then .error "Expecting value"
      else
        let mant : ℚ := (digitsVal ip : ℚ) + (digitsVal fp : ℚ) / (10 : ℚ) ^ fp.length
        match jExp cs3 with
        | .error e => .error e
        | .ok (none, cs4) => .ok (.float (applySign neg mant), cs4)
        | .ok (some ex, cs4) => .ok (.float (applySign neg (mant * (10 : ℚ) ^ ex)), cs4)
    | _ =>
      match jExp cs2 with
      | .error e => .error e
      | .ok (none, cs4) =>
        .ok (.int (if neg then -(digitsVal ip : Int) else (digitsVal ip : Int)), cs4)
      | .ok (some ex, cs4) =>
        .ok (.float (applySign neg ((digitsVal ip : ℚ) * (10 : ℚ) ^ ex)), cs4)

mutual

/-- One JSON value, fuel-bounded (each recursive call consumes input). -/
def jValue : Nat → List Char → Except String (Json × List Char)
  | 0, _ => .error "Expecting value"
  | fuel + 1, cs =>
    match skipWS cs with
    | [] => .error "Expecting value"
    | 'n' :: 'u' :: 'l' :: 'l' :: rest => .ok (.null, rest)
    | 't' :: 'r' :: 'u' :: 'e' :: rest => .ok (.bool true, rest)
    | 'f' :: 'a' :: 'l' :: 's' :: 'e' :: rest => .ok (.bool false, rest)
    | '"' :: rest =>
      match jStringBody (rest.length + 1) rest [] with
      | .error e => .error e
      | .ok (s, r) => .ok (.str s, r)
    | '[' :: rest =>
      match skipWS rest with
      | ']' :: r2 => .ok (.arr [], r2)
      | r2 => jItems fuel r2 []
    | '\x7b' :: rest =>
      match skipWS rest with
      | '\x7d' :: r2 => .ok (.obj [], r2)
      | r2 => jMembers fuel r2 []
    | c :: rest =>
      if c.isDigit || c = '-' then jNumber (c :: rest)
      else .error "Expecting value"

/-- Comma-separated array items up to the closing bracket. -/
def jItems : Nat → List Char → List Json → Except String (Json × List Char)
  | 0, _, _ => .error "Expecting value"
  | fuel + 1, cs, acc =>
    match jValue fuel cs with
    | .error e => .error e
    | .ok (v, r) =>
      match skipWS r with
      | ',' :: r2 => jItems fuel r2 (v :: acc)
      | ']' :: r2 => .ok (.arr (v :: acc).reverse, r2)
      | _ => .error "Expecting comma delimiter"

/-- Comma-separated object members up to the closing brace. -/
def jMembers : Nat → List Char → List (String × Json) → Except String (Json × List Char)
  | 0, _, _ => .error "Expecting value"
  | fuel + 1, cs, acc =>
    match skipWS cs with
    | '"' :: rest =>
      match jStringBody (rest.length + 1) rest [] with
      | .error e => .error e
      | .ok (k, r) =>
        match skipWS r with
        | ':' :: r2 =>
          match jValue fuel r2 with
          | .error e => .error e
          | .ok (v, r3) =>
            match skipWS r3 with
            | ',' :: r4 => jMembers fuel r4 ((k, v) :: acc)
            | '\x7d' :: r4 => .ok (.obj ((k, v) :: acc).reverse, r4)
            | _ => .error "Expecting comma delimiter"
        | _ => .error "Expecting colon delimiter"
    | _ => .error "Expecting property name"

end

/-- `json.loads(s)`: one JSON document, nothing but whitespace after it. -/
def jsonLoads (s : String) : Except String Json :=
  match jValue (2 * s.length + 2) s.data with
  | .error e => .error e
  | .ok (v, rest) =>
    if (skipWS rest).isEmpty then .ok v
    else .error "Extra data"

/-- Python's `str.strip()` on a character list. -/
def pyStripChars (cs : List Char) : List Char :=
  ((cs.dropWhile pyIsSpace).reverse.dropWhile pyIsSpace).reverse

/-- Python's `str.strip()`. -/
def pyStrip (s : String) : String :=
  String.mk (pyStripChars s.data)

/-- Python's `str.split('\n')`: the empty string yields one empty field. -/
def splitNL : List Char → List Char → List String
  | [], acc => [String.mk acc.reverse]
  | '\n' :: rest, acc => String.mk acc.reverse :: splitNL rest []
  | c :: rest, acc => splitNL rest (c :: acc)

/-- `data.split('\n')` as used by `parse_jsonl`. -/
def pySplitLines (s : String) : List String :=
  splitNL s.data []

/-- `enumerate(lines, 1)`. -/
def enumFrom : Nat → List String → List (Nat × String)
  | _, [] => []
  | i, x :: xs => (i, x) :: enumFrom (i + 1) xs

/-- The loop guard `if max_records and len(records) >= max_records`:
Python truthiness makes `None` and `0` inactive caps. -/
def capReached (maxRecords : Option Int) (count : Nat) : Bool :=
  match maxRecords with
  | none => false
  | some n => n != 0 && decide (n ≤ (count : Int))

/-- The line loop of `ParserService.parse_jsonl`: before each line the
cap is checked; a blank (all-whitespace) line is skipped; a line that
fails to decode raises `ParserError(f"Line {line_num}: Invalid JSON:
...")`, aborting the whole loop.  `acc` holds the records collected so
far, in reverse. -/
def collectJsonlRecords (maxRecords : Option Int) :
    List (Nat × String) → List Json → Except String (List Json)
  | [], acc => .ok acc.reverse
  | (lineNum, line) :: rest, acc =>
    if capReached maxRecords acc.length then .ok acc.reverse
    else
      let line := pyStrip line
      if line = "" then collectJsonlRecords maxRecords rest acc
      else
        match jsonLoads line with
        | .ok record => collectJsonlRecords maxRecords rest (record :: acc)
        | .error e => .error ("Line " ++ toString lineNum ++ ": Invalid JSON: " ++ e)

/-- `ParserService.parse_jsonl(data, max_records)`: strip the input,
split on newlines, decode non-blank lines up to the cap, then run
`_parse_records` on the collected records.  A decode failure is a
raised `ParserError` (modelled as `Except.error`). -/
def parse_jsonl (m : CompiledMapping) (timeout : Nat → Nat → Bool)
    (data : String) (maxRecords : Option Int) : Except String (List Prediction) := do
  let records ← collectJsonlRecords maxRecords (enumFrom 1 (pySplitLines (pyStrip data))) []
  .ok (parse_records m timeout records)

/-- Truthiness of the `record_path: Optional[str]` argument
(`if record_path:`): `None` and the empty string are falsy. -/
def pyTruthyOptStr : Option String → Bool
  | none => false
  | some s => s != ""

/-- `ParserService.parse_json(data, record_path)`: decode the whole
document (a failure raises `ParserError("Invalid JSON: ...")`); with a
truthy `record_path`, compile it and require its search result to be a
list (else a raised `ParserError`); otherwise use a top-level list as
the records, wrapping any other top-level value as a singleton.  The
jmespath compiler for `record_path` is the parameter `cmp`. -/
def parse_json (m : CompiledMapping) (timeout : Nat → Nat → Bool)
    (cmp : String → Except String (Json → Json))
    (data : String) (recordPath : Option String) : Except String (List Prediction) :=
  match jsonLoads data with
  | .error e => .error ("Invalid JSON: " ++ e)
  | .ok obj =>
    if pyTruthyOptStr recordPath then
      match cmp (recordPath.getD "") with
      | .error e => .error e
      | .ok f =>
        match f obj with
        | .arr rs => .ok (parse_records m timeout rs)
        | _ => .error ("Record path '" ++ recordPath.getD "" ++ "' did not return an array")
    else
      match obj with
      | .arr rs => .ok (parse_records m timeout rs)
      | v => .ok (parse_records m timeout [v])

/-- `dict.get(key, default)` on the string-keyed dicts of a template. -/
def pyDictGet (kvs : List (String × Json)) (k : String) (default : Json) : Json :=
  match kvs.lookup k with
  | some v => v
  | none => default

/-- Python attribute access `.get` requires a dict; any other value
raises `AttributeError`. -/
def asDict : Json → Except String (List (String × Json))
  | .obj kvs => .ok kvs
  | _ => .error "AttributeError: value has no attribute get"

/-- `jmespath.compile` requires a string expression; any other value raises. -/
def asPathStr : Json → Except String String
  | .str s => .ok s
  | _ => .error "TypeError: expression must be a string"

/-- The stored `bbox_cfg.get("format", "xyxy")` / polygon analogue is
used only in `==` comparisons against the known format literals; a
non-string value compares unequal to all of them, modelled by a marker
string that is not a known format. -/
def fmtStr (j : Json) : String :=
  match j with
  | .str s => s
  | _ => "<non-string-format>"

/-- One `jmespath.compile(...)` call on a template field value (the
argument must be a string, then the compiler `cmp` runs on it). -/
def compileField (cmp : String → Except String (Json → Json)) (j : Json) :
    Except String (Json → Json) :=
  match asPathStr j with
  | .error e => .error e
  | .ok s => cmp s

/-- The conditional score compilation
`jmespath.compile(ann_mapping.get("score", "")) if ann_mapping.get("score") else None`. -/
def compileScore (cmp : String → Except String (Json → Json))
    (ann_mapping : List (String × Json)) : Except String (Option (Json → Json)) :=
  if pyTruthy (pyDictGet ann_mapping "score" .null) then
    match compileField cmp (pyDictGet ann_mapping "score" (.str "")) with
    | .error e => .error e
    | .ok f => .ok (some f)
  else .ok none

/-- The bbox block of `_compile_expressions`: a truthy `bbox` config
compiles its `path` (default `""`) and reads `format` (default
`"xyxy"`) and `normalized` (default `False`); otherwise
`bbox_path_expr = None`. -/
def compileBboxCfg (cmp : String → Except String (Json → Json))
    (ann_mapping : List (String × Json)) :
    Except String (Option (Json → Json) × String × Bool) :=
  if pyTruthy (pyDictGet ann_mapping "bbox" (.obj [])) then
    match asDict (pyDictGet ann_mapping "bbox" (.obj [])) with
    | .error e => .error e
    | .ok cfg =>
      match compileField cmp (pyDictGet cfg "path" (.str "")) with
      | .error e => .error e
      | .ok p =>
        .ok (some p, fmtStr (pyDictGet cfg "format" (.str "xyxy")),
          pyTruthy (pyDictGet cfg "normalized" (.bool false)))
  else .ok (none, "xyxy", false)

/-- The polygon block of `_compile_expressions`, mirroring the bbox block
with default format `"flat"`. -/
def compilePolyCfg (cmp : String → Except String (Json → Json))
    (ann_mapping : List (String × Json)) :
    Except String (Option (Json → Json) × String) :=
  if pyTruthy (pyDictGet ann_mapping "polygon" (.obj [])) then
    match asDict (pyDictGet ann_mapping "polygon" (.obj [])) with
    | .error e => .error e
    | .ok cfg =>
      match compileField cmp (pyDictGet cfg "path" (.str "")) with
      | .error e => .error e
      | .ok p => .ok (some p, fmtStr (pyDictGet cfg "format" (.str "flat")))
  else .ok (none, "flat")

/-- `ParserService._compile_expressions` (run by `__init__`): compile
`mapping.image_key`, `mapping.annotations_path` and
`mapping.annotation.label` unconditionally (with `""` as the default for
a missing key); compile `annotation.score` only when its value is
truthy; compile `annotation.bbox.path` / `annotation.polygon.path` only
when the `bbox` / `polygon` config dict is truthy, with format defaults
`"xyxy"` / `"flat"`.  The jmespath compiler is the parameter `cmp`; a
raised compile error propagates out of construction. -/
def compile_expressions (cmp : String → Except String (Json → Json))
    (template : List (String × Json)) : Except String CompiledMapping :=
  match asDict (pyDictGet template "mapping" (.obj [])) with
  | .error e => .error e
  | .ok mapping =>
  match compileField cmp (pyDictGet mapping "image_key" (.str "")) with
  | .error e => .error e
  | .ok image_key_expr =>
  match compileField cmp (pyDictGet mapping "annotations_path" (.str "")) with
  | .error e => .error e
  | .ok annotations_path_expr =>
  match asDict (pyDictGet mapping "annotation" (.obj [])) with
  | .error e => .error e
  | .ok ann_mapping =>
  match compileField cmp (pyDictGet ann_mapping "label" (.str "")) with
  | .error e => .error e
  | .ok label_expr =>
  match compileScore cmp ann_mapping with
  | .error e => .error e
  | .ok score_expr =>
  match compileBboxCfg cmp ann_mapping with
  | .error e => .error e
  | .ok (bbox_path_expr, bbox_format, bbox_normalized) =>
  match compilePolyCfg cmp ann_mapping with
  | .error e => .error e
  | .ok (polygon_path_expr, polygon_format) =>
    .ok ⟨image_key_expr, annotations_path_expr, label_expr, score_expr,
      bbox_path_expr, bbox_format, bbox_normalized, polygon_path_expr, polygon_format⟩

/-- Models the third-party `jmespath.compile` entry point for theorems
that need a concrete compiler: the library's lexer raises
`EmptyExpressionError` for an empty expression string
(`jmespath/lexer.py`); every non-empty expression is modelled as
compiling to an abstract search function (its semantics are irrelevant
to the construction-time behaviour verified here). -/
def jmesCompileModel (s : String) : Except String (Json → Json) :=
  if s = "" then .error "EmptyExpressionError: invalid jmespath expression: cannot be empty"
  else .ok (fun _ => Json.null)

/-- The jmespath search function of a plain identifier expression
`"field"`: on a dict, the value under the key or `None`; on any other
value, `None`.  Used to instantiate `CompiledMapping` concretely. -/
def searchField (k : String) : Json → Json
  | .obj kvs => pyDictGet kvs k .null
  | _ => .null

/-- The always-false timeout environment: no annotation iteration
exceeds the 100 ms budget. -/
def noTimeout : Nat → Nat → Bool := fun _ _ => false

/-- A concrete compiled mapping used by concrete evaluations: image key
from `"img"`, annotations from `"anns"`, label from `"lbl"`, score from
`"s"`, no geometry mappings. -/
def demoMapping : CompiledMapping where
  image_key := searchField "img"
  annotations_path := searchField "anns"
  label := searchField "lbl"
  score := some (searchField "s")
  bboxPath := none
  bboxFormat := "xyxy"
  bboxNormalized := false
  polygonPath := none
  polygonFormat := "flat"

/-- A concrete compiled mapping with a nested-polygon configuration on
path `"poly"` and no score/bbox mapping. -/
def demoPolyMapping : CompiledMapping where
  image_key := searchField "img"
  annotations_path := searchField "anns"
  label := searchField "lbl"
  score := none
  bboxPath := none
  bboxFormat := "xyxy"
  bboxNormalized := false
  polygonPath := some (searchField "poly")
  polygonFormat := "nested"

/-- A record whose single annotation has the non-numeric score `"bad"`:
mapping it raises `ValueError` inside `float()`. -/
def demoBadScoreRecord : Json :=
  .obj [("img", .str "a.jpg"),
        ("anns", .arr [.obj [("lbl", .str "cat"), ("s", .str "bad")]])]

/-- `isinstance(x, list)` on a decoded JSON value. -/
def isJArr : Json → Bool
  | .arr _ => true
  | _ => false

/-- The list a decoded annotations value iterates over (a non-list
yields nothing; used only to state membership in theorems). -/
def annsOf : Json → List Json
  | .arr l => l
  | _ => []

/-- A 5-line JSONL batch whose third line is malformed JSON. -/
def fiveLineData : String :=
  "\x7b\"img\": \"a\"\x7d\n\x7b\"img\": \"b\"\x7d\nnot json\n\x7b\"img\": \"d\"\x7d\n\x7b\"img\": \"e\"\x7d"

/-- The first two (well-formed) lines of `fiveLineData`. -/
def firstTwoLines : String := "\x7b\"img\": \"a\"\x7d\n\x7b\"img\": \"b\"\x7d"

/-- Two well-formed JSONL lines followed by a malformed third line. -/
def cappedData : String := "\x7b\"img\": \"a\"\x7d\n\x7b\"img\": \"b\"\x7d\nMALFORMED"

/-- A JSON document that is an array of twelve records. -/
def json12Data : String :=
  "[\x7b\"img\": \"r1\"\x7d, \x7b\"img\": \"r2\"\x7d, \x7b\"img\": \"r3\"\x7d, \x7b\"img\": \"r4\"\x7d, \x7b\"img\": \"r5\"\x7d, \x7b\"img\": \"r6\"\x7d, \x7b\"img\": \"r7\"\x7d, \x7b\"img\": \"r8\"\x7d, \x7b\"img\": \"r9\"\x7d, \x7b\"img\": \"r10\"\x7d, \x7b\"img\": \"r11\"\x7d, \x7b\"img\": \"r12\"\x7d]"

/-- A record whose single annotation carries the nested polygon
`[[1,2],[3,4],[5]]` (third element shorter than a pair). -/
def demoNestedPolyRecord : Json :=
  .obj [("img", .str "a.jpg"),
        ("anns", .arr [.obj [("lbl", .str "cat"),
          ("poly", .arr [.arr [.int 1, .int 2], .arr [.int 3, .int 4], .arr [.int 5]])]])]

/-- Items produced by the bbox step all carry the stringified label. -/
theorem bboxItemsOf_label_of_ok (m : CompiledMapping) (label : Json) (score : Option ℚ)
    (ann : Json) (its : List PredictionItem) (h : bboxItemsOf m label score ann = .ok its) :
    ∀ it ∈ its, it.label = pyStr label := by
  unfold bboxItemsOf at h
  split at h
  · cases h; simp
  · split at h
    · split at h
      · cases h; simp
      · cases h; simp
      · cases h
    · cases h; simp

/-- Items produced by the polygon step all carry the stringified label. -/
theorem polyItemsOf_label_of_ok (m : CompiledMapping) (label : Json) (score : Option ℚ)
    (ann : Json) (its : List PredictionItem) (h : polyItemsOf m label score ann = .ok its) :
    ∀ it ∈ its, it.label = pyStr label := by
  unfold polyItemsOf at h
  split at h
  · cases h; simp
  · split at h
    · split at h
      · cases h; simp
      · cases h; simp
      · cases h
    · cases h; simp

/-- Every item emitted by the annotation loop comes from some annotation
in the list whose label evaluated truthy, and carries that label. -/
theorem annLoop_labels_of_ok (m : CompiledMapping) (t : Nat → Bool) :
    ∀ (anns : List Json) (i : Nat) (items : List PredictionItem),
      annLoop m t anns i = .ok items →
      ∀ it ∈ items, ∃ ann ∈ anns,
        pyTruthy (m.label ann) = true ∧ it.label = pyStr (m.label ann) := by
  intro anns
  induction anns with
  | nil =>
    intro i items h it hit
    simp only [annLoop] at h
    cases h
    simp at hit
  | cons ann rest ih =>
    intro i items h it hit
    simp only [annLoop] at h
    split at h
    · cases h
    · split at h
      · rename_i htr
        simp only [bind, Except.bind] at h
        cases hs : scoreOf m ann with
        | error e => rw [hs] at h; cases h
        | ok score =>
          rw [hs] at h
          dsimp only at h
          cases hb : bboxItemsOf m (m.label ann) score ann with
          | error e => rw [hb] at h; cases h
          | ok bi =>
            rw [hb] at h
            dsimp only at h
            cases hp : polyItemsOf m (m.label ann) score ann with
            | error e => rw [hp] at h; cases h
            | ok pi =>
              rw [hp] at h
              dsimp only at h
              cases ht : annLoop m t rest (i + 1) with
              | error e => rw [ht] at h; cases h
              | ok tl =>
                rw [ht] at h
                dsimp only at h
                cases h
                rcases List.mem_append.mp hit with h1 | h2
                · rcases List.mem_append.mp h1 with hbi | hpi
                  · exact ⟨ann, by simp, htr,
                      bboxItemsOf_label_of_ok m (m.label ann) score ann bi hb it hbi⟩
                  · exact ⟨ann, by simp, htr,
                      polyItemsOf_label_of_ok m (m.label ann) score ann pi hp it hpi⟩
                · obtain ⟨a, ha, hta, hla⟩ := ih (i + 1) tl ht it h2
                  exact ⟨a, by simp [ha], hta, hla⟩
      · obtain ⟨a, ha, hta, hla⟩ := ih (i + 1) items h it hit
        exact ⟨a, by simp [ha], hta, hla⟩

/-- The flattening of a list of pairs has twice as many entries. -/
theorem join_length_two (pts : List (List Json)) (h : ∀ p ∈ pts, p.length = 2) :
    pts.flatten.length = 2 * pts.length := by
  induction pts with
  | nil => rfl
  | cons p rest ih =>
    have hp : p.length = 2 := h p (by simp)
    have ih2 := ih (fun q hq => h q (by simp [hq]))
    simp [List.flatten, hp, ih2]
    ring

/-- Re-pairing the flattening of a list of pairs is the identity. -/
theorem pairUp_join (pts : List (List Json)) (h : ∀ p ∈ pts, p.length = 2) :
    pairUp pts.flatten = pts := by
  induction pts with
  | nil => rfl
  | cons p rest ih =>
    have hp : p.length = 2 := h p (by simp)
    have ih2 := ih (fun q hq => h q (by simp [hq]))
    rcases p with _ | ⟨a, _ | ⟨b, _ | ⟨c, tl⟩⟩⟩
    · simp at hp
    · simp at hp
    · show pairUp ([a, b] ++ rest.flatten) = [a, b] :: rest
      simpa [pairUp] using ih2
    · simp at hp

/-- A nested-polygon element whose length is below 2 is skipped by the
comprehension with no effect on the remaining elements. -/
theorem nestedPoints_skip (p : Json) (rest : List Json) (n : Nat)
    (h : pyLen p = .ok n) (hlt : n < 2) :
    nestedPoints (p :: rest) = nestedPoints rest := by
  simp only [nestedPoints, bind, Except.bind]
  rw [h]
  dsimp only
  rw [if_neg (by omega)]

/-- Each record contributes at most one prediction. -/
theorem parse_records_state_len (m : CompiledMapping) (t : Nat → Nat → Bool) :
    ∀ (rs : List Json) (i : Nat), (parse_records_state m t rs i).1.length ≤ rs.length := by
  intro rs
  induction rs with
  | nil => intro i; simp [parse_records_state]
  | cons r rest ih =>
    intro i
    simp only [parse_records_state]
    cases h : parse_single_record m (t i) r with
    | error e =>
      have := ih (i + 1)
      simp
      omega
    | ok op =>
      cases op with
      | none =>
        have := ih (i + 1)
        simp
        omega
      | some p =>
        have := ih (i + 1)
        simp
        omega

/-- The JSONL line loop with a positive cap never collects more than
`max acc.length n.toNat` records (the cap is checked before each line). -/
theorem collectJsonl_len (n : Int) (hn : 0 < n) :
    ∀ (lines : List (Nat × String)) (acc recs : List Json),
      collectJsonlRecords (some n) lines acc = .ok recs →
      recs.length ≤ max acc.length n.toNat := by
  intro lines
  induction lines with
  | nil =>
    intro acc recs h
    simp only [collectJsonlRecords] at h
    cases h
    simp
  | cons ln rest ih =>
    intro acc recs h
    rcases ln with ⟨num, line⟩
    simp only [collectJsonlRecords] at h
    split at h
    · cases h
      simp
    · rename_i hcap
      split at h
      · exact ih acc recs h
      · split at h
        · rename_i record hrec
          have hb := ih (record :: acc) recs h
          have hlt : (acc.length : Int) < n := by
            by_contra hge
            apply hcap
            simp only [capReached]
            have h1 : (n != 0) = true := by
              simp only [bne_iff_ne]
              omega
            have h2 : decide (n ≤ (acc.length : Int)) = true := by
              simp
              omega
            simp [h1, h2]
          simp at hb
          rcases hb with hb | hb
          · omega
          · omega
        · cases h

/-- A successful `parse_jsonl` with a positive cap returns at most the
cap many predictions. -/
theorem parse_jsonl_cap (m : CompiledMapping) (t : Nat → Nat → Bool) (data : String)
    (n : Int) (hn : 0 < n) (preds : List Prediction)
    (h : parse_jsonl m t data (some n) = .ok preds) :
    preds.length ≤ n.toNat := by
  unfold parse_jsonl at h
  simp only [bind, Except.bind] at h
  cases hc : collectJsonlRecords (some n) (enumFrom 1 (pySplitLines (pyStrip data))) [] with
  | error e => rw [hc] at h; cases h
  | ok recs =>
    rw [hc] at h
    dsimp only at h
    cases h
    have h1 := collectJsonl_len n hn _ [] recs hc
    have h2 := parse_records_state_len m t recs 0
    simp at h1
    unfold parse_records
    omega

/-- C1: `_parse_records` does catch every per-record exception, in order,
recording `(index, message)` in its local errors list and appending each
non-`None` prediction — but the value it returns is only the predictions
list: at a one-record batch whose mapping raises inside `float(score)`,
the recorded error `(0, ...)` is present in the internal state while the
returned result is the bare empty predictions list, carrying no error
information to the caller. -/
theorem c1_parse_records_drops_errors :
    parse_records_state demoMapping noTimeout [demoBadScoreRecord] 0 =
      ([], [(0, "ValueError: could not convert string to float: bad")])
  ∧ parse_records demoMapping noTimeout [demoBadScoreRecord] = [] :=
  ⟨rfl, rfl⟩

/-- C2 (amended): in jsonl mode a malformed line is not a per-record
error: for the five-line input whose third line is malformed,
`parse_jsonl` raises a `ParserError` naming line 3 and returns no
predictions (lines 4 and 5 are never processed), while the same input
truncated to its first two well-formed lines parses to two
predictions. -/
theorem c2_malformed_jsonl_line_aborts_batch :
    parse_jsonl demoMapping noTimeout firstTwoLines none = .ok [⟨"a", []⟩, ⟨"b", []⟩]
  ∧ parse_jsonl demoMapping noTimeout fiveLineData none =
      .error "Line 3: Invalid JSON: Expecting value" :=
  ⟨rfl, rfl⟩

/-- C2 counterexample: on the five-line JSONL input with malformed line 3
the batch does not continue — the whole call raises with a single
line-3 error, so no predictions from lines 1, 2, 4, 5 are returned. -/
theorem c2_counterexample :
    parse_jsonl demoMapping noTimeout fiveLineData none =
      .error "Line 3: Invalid JSON: Expecting value" := rfl

/-- C3 (amended): an empty path expression is not treated as
`no mapping configured`: `_compile_expressions` passes the default `""`
for a missing `image_key` straight to the expression compiler, so when
the compiler rejects the empty expression (as jmespath does with
`EmptyExpressionError`), constructing the parser from a template with an
empty mapping raises that compile error; only the truthiness-guarded
optional `score` expression and wholly absent `bbox`/`polygon` configs
are skipped, as the second conjunct shows for a complete minimal
mapping. -/
theorem c3_empty_expression_rejected_at_compile :
    (∀ (cmp : String → Except String (Json → Json)) (msg : String),
      cmp "" = .error msg →
      compile_expressions cmp [] = .error msg)
  ∧ (∀ (cmp : String → Except String (Json → Json)) (fi fa fl : Json → Json),
      cmp "img" = .ok fi → cmp "anns" = .ok fa → cmp "lbl" = .ok fl →
      compile_expressions cmp
        [("mapping", .obj [("image_key", .str "img"), ("annotations_path", .str "anns"),
          ("annotation", .obj [("label", .str "lbl")])])] =
        .ok ⟨fi, fa, fl, none, none, "xyxy", false, none, "flat"⟩) := by
  constructor
  · intro cmp msg h
    unfold compile_expressions
    dsimp only [asDict, pyDictGet, List.lookup, compileField, asPathStr]
    rw [h]
  · intro cmp fi fa fl h1 h2 h3
    simp [compile_expressions, compileField, compileScore, compileBboxCfg, compilePolyCfg,
      asDict, pyDictGet, List.lookup, asPathStr, fmtStr, pyTruthy, h1, h2, h3]

/-- C3 witness: with the modelled jmespath compiler, constructing the
parser from the empty template raises the empty-expression error. -/
theorem c3_witness :
    compile_expressions jmesCompileModel [] =
      .error "EmptyExpressionError: invalid jmespath expression: cannot be empty" :=
  c3_empty_expression_rejected_at_compile.1 jmesCompileModel _ rfl

/-- C3 counterexample: construction with a template whose mapping omits
`image_key` does not succeed — under the modelled jmespath compiler
(whose lexer rejects empty expressions) it returns the compile error
instead of treating the empty expression as always-absent. -/
theorem c3_counterexample :
    compile_expressions jmesCompileModel [] =
      .error "EmptyExpressionError: invalid jmespath expression: cannot be empty" := rfl

/-- C4: on a sequence of at least four numeric coordinates, `xyxy` yields
`{c0, c1, c2-c0, c3-c1}`, `xywh` yields `{c0, c1, c2, c3}` and `cxcywh`
yields `{c0-c2/2, c1-c3/2, c2, c3}`, all exactly over `ℚ`; consequently
parsing `[x0,y0,x1,y1]` as `xyxy` equals parsing `[x0,y0,x1-x0,y1-y0]`
as `xywh`. -/
theorem c4_bbox_normalization_formulas (c0 c1 c2 c3 : ℚ) (rest : List Json) (norm : Bool) :
    parse_bbox (.arr (.float c0 :: .float c1 :: .float c2 :: .float c3 :: rest)) "xyxy" norm =
      .ok (some ⟨c0, c1, c2 - c0, c3 - c1⟩)
  ∧ parse_bbox (.arr (.float c0 :: .float c1 :: .float c2 :: .float c3 :: rest)) "xywh" norm =
      .ok (some ⟨c0, c1, c2, c3⟩)
  ∧ parse_bbox (.arr (.float c0 :: .float c1 :: .float c2 :: .float c3 :: rest)) "cxcywh" norm =
      .ok (some ⟨c0 - c2 / 2, c1 - c3 / 2, c2, c3⟩)
  ∧ (∀ x0 y0 x1 y1 : ℚ,
      parse_bbox (.arr [.float x0, .float y0, .float x1, .float y1]) "xyxy" norm =
      parse_bbox (.arr [.float x0, .float y0, .float (x1 - x0), .float (y1 - y0)]) "xywh" norm) :=
  ⟨rfl, rfl, rfl, fun _ _ _ _ => rfl⟩

/-- C4 witness: the formulas instantiated at the box (10,10)-(50,60). -/
theorem c4_witness :
    parse_bbox (.arr [.float 10, .float 10, .float 50, .float 60]) "xyxy" false =
      .ok (some ⟨10, 10, 50 - 10, 60 - 10⟩) :=
  (c4_bbox_normalization_formulas 10 10 50 60 [] false).1

/-- C5: a record whose image-key expression yields no value produces no
prediction and no error; a truthy image key with an absent or non-list
annotations value still yields a prediction with an empty item list;
every emitted item stems from an annotation whose label evaluated to a
truthy (in particular non-empty) value and carries that label; and an
annotation with a falsy label is skipped by the loop with no item and no
error. -/
theorem c5_record_mapper_silent_skips :
    (∀ (m : CompiledMapping) (t : Nat → Bool) (r : Json),
      m.image_key r = Json.null → parse_single_record m t r = .ok none)
  ∧ (∀ (m : CompiledMapping) (t : Nat → Bool) (r : Json),
      pyTruthy (m.image_key r) = true → isJArr (m.annotations_path r) = false →
      parse_single_record m t r = .ok (some ⟨pyStr (m.image_key r), []⟩))
  ∧ (∀ (m : CompiledMapping) (t : Nat → Bool) (r : Json) (p : Prediction),
      parse_single_record m t r = .ok (some p) →
      ∀ it ∈ p.predictions, ∃ ann ∈ annsOf (m.annotations_path r),
        pyTruthy (m.label ann) = true ∧ it.label = pyStr (m.label ann))
  ∧ (∀ (m : CompiledMapping) (t : Nat → Bool) (ann : Json) (rest : List Json) (i : Nat),
      t i = false → pyTruthy (m.label ann) = false →
      annLoop m t (ann :: rest) i = annLoop m t rest (i + 1)) := by
  refine ⟨?_, ?_, ?_, ?_⟩
  · intro m t r h
    unfold parse_single_record
    rw [h]
    simp [pyTruthy]
  · intro m t r h1 h2
    unfold parse_single_record
    simp only [h1, if_true]
    cases ha : m.annotations_path r <;> simp_all [isJArr]
  · intro m t r p h it hit
    unfold parse_single_record at h
    dsimp only at h
    split at h
    · rename_i himg
      split at h
      · rename_i anns heq
        split at h
        · simp only [bind, Except.bind] at h
          cases hl : annLoop m t anns 0 with
          | error e => rw [hl] at h; cases h
          | ok items =>
            rw [hl] at h
            dsimp only at h
            cases h
            obtain ⟨a, ha, hta, hla⟩ := annLoop_labels_of_ok m t anns 0 items hl it hit
            exact ⟨a, by rw [heq]; simpa [annsOf] using ha, hta, hla⟩
        · cases h
          simp at hit
      · cases h
        simp at hit
    · cases h
  · intro m t ann rest i ht hl
    simp [annLoop, ht, hl]

/-- C5 witness: the empty record has no image key, so it is silently
skipped. -/
theorem c5_witness :
    parse_single_record demoMapping (fun _ => false) (.obj []) = .ok none :=
  c5_record_mapper_silent_skips.1 demoMapping (fun _ => false) (.obj []) rfl

/-- C6: in json mode a malformed top-level document fails the whole batch
with the single `Invalid JSON` error and zero predictions; a truthy
record path whose search result is not a list is likewise a whole-batch
error; with no record path a top-level list is the records sequence and
any other top-level value is wrapped as a one-element sequence. -/
theorem c6_json_mode_batch_boundaries :
    (∀ (m : CompiledMapping) (t : Nat → Nat → Bool) (cmp : String → Except String (Json → Json))
       (data : String) (rp : Option String) (e : String),
      jsonLoads data = .error e →
      parse_json m t cmp data rp = .error ("Invalid JSON: " ++ e))
  ∧ (∀ (m : CompiledMapping) (t : Nat → Nat → Bool) (cmp : String → Except String (Json → Json))
       (data rp : String) (o : Json) (f : Json → Json),
      jsonLoads data = .ok o → pyTruthyOptStr (some rp) = true →
      cmp rp = .ok f → isJArr (f o) = false →
      parse_json m t cmp data (some rp) =
        .error ("Record path '" ++ rp ++ "' did not return an array"))
  ∧ (∀ (m : CompiledMapping) (t : Nat → Nat → Bool) (cmp : String → Except String (Json → Json))
       (data : String) (rs : List Json),
      jsonLoads data = .ok (.arr rs) →
      parse_json m t cmp data none = .ok (parse_records m t rs))
  ∧ (∀ (m : CompiledMapping) (t : Nat → Nat → Bool) (cmp : String → Except String (Json → Json))
       (data : String) (v : Json),
      jsonLoads data = .ok v → isJArr v = false →
      parse_json m t cmp data none = .ok (parse_records m t [v])) := by
  refine ⟨?_, ?_, ?_, ?_⟩
  · intro m t cmp data rp e h
    unfold parse_json
    rw [h]
  · intro m t cmp data rp o f h hrp hcmp hjo
    unfold parse_json
    rw [h]
    dsimp only
    rw [if_pos hrp]
    dsimp only [Option.getD]
    rw [hcmp]
    dsimp only
    cases hfo : f o <;> try rfl
    rw [hfo] at hjo
    simp [isJArr] at hjo
  · intro m t cmp data rs h
    unfold parse_json
    rw [h]
    rfl
  · intro m t cmp data v h hv
    unfold parse_json
    rw [h]
    cases v <;> first | rfl | simp [isJArr] at hv

/-- C6 witness: the malformed document `xx` fails the whole json-mode
batch with the single top-level error and no predictions. -/
theorem c6_witness :
    parse_json demoMapping noTimeout jmesCompileModel "xx" none =
      .error "Invalid JSON: Expecting value" :=
  c6_json_mode_batch_boundaries.1 demoMapping noTimeout jmesCompileModel "xx" none
    "Expecting value" rfl

/-- C7: flattening any nested polygon of pairs (with at least three
points) and parsing the flat form with `format=flat` reproduces the
original nested point list exactly. -/
theorem c7_polygon_flat_roundtrip (pts : List (List Json))
    (h2 : ∀ p ∈ pts, p.length = 2) (h3 : 3 ≤ pts.length) :
    parse_polygon (.arr pts.flatten) "flat" = .ok (some ⟨pts⟩) := by
  have hlen := join_length_two pts h2
  have hcond : (pts.flatten.length < 6 || pts.flatten.length % 2 != 0) = false := by
    rw [hlen]; simp; omega
  simp only [parse_polygon]
  rw [hcond]
  simp [pairUp_join pts h2]

/-- C7 witness: the roundtrip at the triangle [[1,2],[3,4],[5,6]]. -/
theorem c7_witness :
    parse_polygon (.arr [.int 1, .int 2, .int 3, .int 4, .int 5, .int 6]) "flat" =
      .ok (some ⟨[[.int 1, .int 2], [.int 3, .int 4], [.int 5, .int 6]]⟩) :=
  c7_polygon_flat_roundtrip [[.int 1, .int 2], [.int 3, .int 4], [.int 5, .int 6]]
    (by decide) (by decide)

/-- C8 (amended): a bbox input with fewer than 4 elements yields an
absent result; an unknown bbox format yields an absent result provided
the first four elements are float-convertible (the conversion runs
before the format dispatch, so a non-convertible element raises even
under an unknown format); a flat polygon with odd length or fewer than
6 values, a nested polygon with fewer than 3 elements, and an unknown
polygon format all yield an absent result unconditionally; and an
absent geometry contributes no `PredictionItem` in the mapper. -/
theorem c8_geometry_shape_violations_absent :
    (∀ (xs : List Json) (fmt : String) (norm : Bool), xs.length < 4 →
        parse_bbox (.arr xs) fmt norm = .ok none)
  ∧ (∀ (a b c d : Json) (rest : List Json) (fmt : String) (norm : Bool) (q0 q1 q2 q3 : ℚ),
        pyFloat a = .ok q0 → pyFloat b = .ok q1 → pyFloat c = .ok q2 → pyFloat d = .ok q3 →
        fmt ≠ "xyxy" → fmt ≠ "xywh" → fmt ≠ "cxcywh" →
        parse_bbox (.arr (a :: b :: c :: d :: rest)) fmt norm = .ok none)
  ∧ (∀ (xs : List Json), xs.length < 6 ∨ xs.length % 2 ≠ 0 →
        parse_polygon (.arr xs) "flat" = .ok none)
  ∧ (∀ (xs : List Json), xs.length < 3 →
        parse_polygon (.arr xs) "nested" = .ok none)
  ∧ (∀ (xs : List Json) (fmt : String), fmt ≠ "flat" → fmt ≠ "nested" →
        parse_polygon (.arr xs) fmt = .ok none)
  ∧ (∀ (m : CompiledMapping) (label : Json) (score : Option ℚ) (ann : Json)
        (bexpr : Json → Json), m.bboxPath = some bexpr →
        parse_bbox (bexpr ann) m.bboxFormat m.bboxNormalized = .ok none →
        bboxItemsOf m label score ann = .ok [])
  ∧ (∀ (m : CompiledMapping) (label : Json) (score : Option ℚ) (ann : Json)
        (pexpr : Json → Json), m.polygonPath = some pexpr →
        parse_polygon (pexpr ann) m.polygonFormat = .ok none →
        polyItemsOf m label score ann = .ok []) := by
  refine ⟨?_, ?_, ?_, ?_, ?_, ?_, ?_⟩
  · intro xs fmt norm h
    rcases xs with _ | ⟨a, _ | ⟨b, _ | ⟨c, _ | ⟨d, rest⟩⟩⟩⟩
    · rfl
    · rfl
    · rfl
    · rfl
    · exfalso
      simp only [List.length_cons] at h
      omega
  · intro a b c d rest fmt norm q0 q1 q2 q3 ha hb hc hd h1 h2 h3
    simp only [parse_bbox, bind, Except.bind, ha, hb, hc, hd]
    rw [if_neg h1, if_neg h2, if_neg h3]
  · intro xs h
    have hcond : (xs.length < 6 || xs.length % 2 != 0) = true := by
      rcases h with h | h
      · simp [h]
      · simp
        omega
    simp only [parse_polygon]
    rw [hcond]
    simp
  · intro xs h
    simp [parse_polygon, h]
  · intro xs fmt h1 h2
    simp only [parse_polygon]
    rw [if_neg h1, if_neg h2]
  · intro m label score ann bexpr hpath hpb
    unfold bboxItemsOf
    rw [hpath]
    dsimp only
    split
    · rw [hpb]
    · rfl
  · intro m label score ann pexpr hpath hpp
    unfold polyItemsOf
    rw [hpath]
    dsimp only
    split
    · rw [hpp]
    · rfl

/-- C8 witness: an unknown bbox format on convertible coordinates, a
four-value flat polygon, and a two-element nested polygon all yield an
absent result. -/
theorem c8_witness :
    parse_bbox (.arr [.int 1, .int 2, .int 3, .int 4]) "fmt?" false = .ok none
  ∧ parse_polygon (.arr [.int 1, .int 2, .int 3, .int 4]) "flat" = .ok none
  ∧ parse_polygon (.arr [.int 1, .int 2]) "nested" = .ok none :=
  ⟨c8_geometry_shape_violations_absent.2.1 (.int 1) (.int 2) (.int 3) (.int 4) [] "fmt?" false
      _ _ _ _ rfl rfl rfl rfl (by decide) (by decide) (by decide),
    c8_geometry_shape_violations_absent.2.2.1 [.int 1, .int 2, .int 3, .int 4] (by decide),
    c8_geometry_shape_violations_absent.2.2.2.1 [.int 1, .int 2] (by decide)⟩

/-- C8 counterexample: a bbox input whose format is unknown but whose
elements are not float-convertible raises a `TypeError` from the
conversion that precedes the format dispatch, instead of yielding an
absent result. -/
theorem c8_counterexample :
    parse_bbox (.arr [.arr [], .arr [], .arr [], .arr []]) "fmt?" false =
      .error "TypeError: float() argument is not a string or a real number: list" := rfl

/-- C9 (amended): only the jsonl entry point accepts a `max_records`
cap — with a positive cap the result has at most that many predictions,
and lines beyond the cap are never decoded (a malformed line after the
cap does not fail the batch); the json entry point takes only a record
path and maps every record of the document. -/
theorem c9_max_records_cap_jsonl_only :
    (∀ (m : CompiledMapping) (t : Nat → Nat → Bool) (data : String) (n : Int)
       (preds : List Prediction), 0 < n →
      parse_jsonl m t data (some n) = .ok preds → preds.length ≤ n.toNat)
  ∧ parse_jsonl demoMapping noTimeout cappedData (some 2) = .ok [⟨"a", []⟩, ⟨"b", []⟩] :=
  ⟨fun m t data n preds hn h => parse_jsonl_cap m t data n hn preds h, rfl⟩

/-- C9 witness: the cap bound applied at cap 1 on the two-line input. -/
theorem c9_witness :
    ([(⟨"a", []⟩ : Prediction)] : List Prediction).length ≤ (1 : Int).toNat :=
  c9_max_records_cap_jsonl_only.1 demoMapping noTimeout firstTwoLines 1 [⟨"a", []⟩]
    (by decide) rfl

set_option maxRecDepth 40000 in
/-- C9 counterexample: the json entry point `parse_json(data,
record_path)` has no `max_records` parameter at all — on a twelve-record
document it maps every record unconditionally, so no caller-supplied cap
of 10 can stop consumption after the tenth record in json mode. -/
theorem c9_counterexample :
    parse_json demoMapping noTimeout jmesCompileModel json12Data none =
      .ok [⟨"r1", []⟩, ⟨"r2", []⟩, ⟨"r3", []⟩, ⟨"r4", []⟩, ⟨"r5", []⟩, ⟨"r6", []⟩,
        ⟨"r7", []⟩, ⟨"r8", []⟩, ⟨"r9", []⟩, ⟨"r10", []⟩, ⟨"r11", []⟩, ⟨"r12", []⟩] := rfl

/-- C10: after a nested polygon passes the length-at-least-3 check, any
element shorter than a pair is silently filtered with no error, so
[[1,2],[3,4],[5]] parses to exactly the two float points
[[1.0,2.0],[3.0,4.0]], and the record mapper still emits that two-point
polygon as a `PredictionItem`. -/
theorem c10_nested_polygon_filters_short_elements :
    parse_polygon (.arr [.arr [.int 1, .int 2], .arr [.int 3, .int 4], .arr [.int 5]]) "nested" =
      .ok (some ⟨[[.float 1, .float 2], [.float 3, .float 4]]⟩)
  ∧ (∀ (p : Json) (rest : List Json) (n : Nat), pyLen p = .ok n → n < 2 →
      nestedPoints (p :: rest) = nestedPoints rest)
  ∧ parse_single_record demoPolyMapping (fun _ => false) demoNestedPolyRecord =
      .ok (some ⟨"a.jpg", [⟨"polygon", "cat", none,
        .polygon ⟨[[.float 1, .float 2], [.float 3, .float 4]]⟩⟩]⟩) :=
  ⟨rfl, nestedPoints_skip, rfl⟩

/-- C10 witness: the filtering step applied to a one-element list
followed by a proper pair. -/
theorem c10_witness :
    nestedPoints [.arr [.int 5], .arr [.int 1, .int 2]] = nestedPoints [.arr [.int 1, .int 2]] :=
  c10_nested_polygon_filters_short_elements.2.1 (.arr [.int 5]) [.arr [.int 1, .int 2]] 1
    rfl (by decide)
